import Mathlib

/-!
Verification of the voice-chat audio core and the Gemini service glue of the
wechatHelp repository.

The embedding models:
* the playback scheduler state held in `nextStartTimeRef` / `sourcesRef`
  (component `VoiceChatModal`, file `part_001`), with `enqueue` the audio
  branch of `onmessage`, `onEnded` the registered completion callback,
  and `interruptSched` the `serverContent.interrupted` branch;
* the session-level refs and flags (`cleanupAudio`, `onerror`,
  `onaudioprocess`);
* the post-processing of `classifyContent` and the fallback behaviour of
  `generateWeeklyReport` (file `part_000`).

Times are rationals (the source uses the audio clock's real-valued seconds;
the scheduling arithmetic is exact `max` and `+`, faithfully represented
over `ℚ`).  Audio source handles are natural-number ids handed out by a
monotone counter, standing for the object identities JavaScript's `Set`
distinguishes.
-/

namespace WechatHelp

/-- State of the playback scheduler: the scheduling cursor
`nextStartTimeRef.current`, the active set `sourcesRef.current`
(as a list of handle ids, all distinct by construction), a fresh-id
counter standing for object identity, and the `isAIResponding` flag. -/
structure PlaybackState where
  nextStartTime : ℚ
  active : List ℕ
  nextId : ℕ
  isAIResponding : Bool
deriving Repr, DecidableEq

/-- Initial scheduler state: cursor 0, no sources, indicator off. -/
def initPlayback : PlaybackState :=
  { nextStartTime := 0, active := [], nextId := 0, isAIResponding := false }

/-- The audio branch of `onmessage` (part_001 lines 140–163): set
`isAIResponding` true; raise the cursor to `max(nextStartTime, ctx.currentTime)`;
start the new source at the raised cursor; advance the cursor by the chunk's
duration; add the source handle to the active set.  Returns the new state
together with the fresh handle and the start time passed to `source.start`. -/
def enqueue (s : PlaybackState) (clockNow dur : ℚ) : PlaybackState × ℕ × ℚ :=
  let startAt := max s.nextStartTime clockNow
  ({ nextStartTime := startAt + dur
     active := s.active ++ [s.nextId]
     nextId := s.nextId + 1
     isAIResponding := true }, s.nextId, startAt)

/-- The completion callback registered on each source (part_001
lines 156–159): delete the handle from the active set; if the set
became empty, clear `isAIResponding`. -/
def onEnded (s : PlaybackState) (h : ℕ) : PlaybackState :=
  let active' := s.active.filter (fun x => x ≠ h)
  { s with
    active := active'
    isAIResponding := if active'.length = 0 then false else s.isAIResponding }

/-- The `serverContent.interrupted` branch of `onmessage` (part_001
lines 167–172): stop every source, clear the active set, reset the
cursor to 0, clear `isAIResponding`. -/
def interruptSched (s : PlaybackState) : PlaybackState :=
  { s with active := [], nextStartTime := 0, isAIResponding := false }

/-- An inbound server message as `onmessage` inspects it: an optional audio
chunk (its duration, the only datum the scheduler uses) and the
`interrupted` flag. -/
structure ServerMsg where
  audioDur : Option ℚ
  interrupted : Bool

/-- One run of the `onmessage` handler (part_001 lines 135–173) at output
clock `clockNow`: the audio branch runs FIRST (lines 139–164), then the
interruption branch (lines 166–172). -/
def onmessage (s : PlaybackState) (clockNow : ℚ) (m : ServerMsg) : PlaybackState :=
  let s1 := match m.audioDur with
    | some d => (enqueue s clockNow d).1
    | none => s
  if m.interrupted then interruptSched s1 else s1

/-- The order the spec sentence prescribes, for comparison with `onmessage`:
the interruption is applied first, then the audio chunk of the same message
is enqueued on the fresh timeline. -/
def onmessageInterruptFirst (s : PlaybackState) (clockNow : ℚ) (m : ServerMsg) :
    PlaybackState :=
  let s1 := if m.interrupted then interruptSched s else s
  match m.audioDur with
  | some d => (enqueue s1 clockNow d).1
  | none => s1

/-- Well-formedness of handle ids: every active handle was handed out
before the counter's current value, so the next id is fresh. -/
def WFIds (s : PlaybackState) : Prop := ∀ h ∈ s.active, h < s.nextId

/-- The indicator invariant: `isAIResponding` is true iff the active
set is non-empty. -/
def RespondingInv (s : PlaybackState) : Prop :=
  s.isAIResponding = true ↔ s.active ≠ []

/-- The mutable refs and React flags of `VoiceChatModal` (part_001
lines 14–31).  Each device/node ref is modelled by whether it currently
holds a resource (`true` = non-null). -/
structure SessionState where
  processor : Bool
  source : Bool
  stream : Bool
  inputCtx : Bool
  outputCtx : Bool
  playback : PlaybackState
  isConnected : Bool
  isSpeaking : Bool
  error : Option String
deriving Repr, DecidableEq

/-- `cleanupAudio` (part_001 lines 33–64): disconnect and null the
processor and source nodes, stop the mic tracks and null the stream,
close both audio contexts, stop every playing source and clear the
active set, and clear the three flags.  The scheduling cursor and the
error message are NOT touched. -/
def cleanupAudio (s : SessionState) : SessionState :=
  { processor := false
    source := false
    stream := false
    inputCtx := false
    outputCtx := false
    playback := { s.playback with active := [], isAIResponding := false }
    isConnected := false
    isSpeaking := false
    error := s.error }

/-- The `onerror` callback (part_001 lines 178–182): record the
user-visible message and clear the connected flag.  Nothing else. -/
def onerror (s : SessionState) : SessionState :=
  { s with error := some "Connection error.", isConnected := false }

/-- The VAD threshold of `onaudioprocess` (part_001 line 123): 0.01. -/
def vadThreshold : ℚ := 1 / 100

/-- Mean absolute amplitude of a sample block (part_001 lines 121–122):
sum of absolute values divided by the block length.  An empty block
yields 0 (in the source, NaN, which also fails the `>` gate). -/
def meanAbs (block : List ℚ) : ℚ :=
  (block.map (fun b => |b|)).sum / block.length

/-- The speaking-indicator update of `onaudioprocess` (part_001
lines 118–124): set `isSpeaking` to whether the block's mean absolute
amplitude exceeds the fixed threshold. -/
def onaudioprocess (s : SessionState) (block : List ℚ) : SessionState :=
  { s with isSpeaking := decide (meanAbs block > vadThreshold) }

/-! ### Context payload (`connectToLiveAPI`, part_001 lines 74–82) -/

/-- The note categories of `NoteType` (part_000 lines 1–6). -/
inductive NoteType where
  | thought
  | article
  | chat
  | unknown
deriving Repr, DecidableEq

/-- The string value of a `NoteType`, uppercased as by
`n.type.toUpperCase()`. -/
def NoteType.upper : NoteType → String
  | .thought => "THOUGHT"
  | .article => "ARTICLE"
  | .chat => "CHAT"
  | .unknown => "UNKNOWN"

/-- A stored note (`NoteItem`, part_000 lines 8–20), restricted to the
fields the audio core and services read. -/
structure NoteItem where
  id : String
  content : String
  type : NoteType
  title : String
  summary : String
  createdAt : ℕ
  sourceUrl : Option String
  hasMedia : Bool
deriving Repr, DecidableEq

/-- One line of the context digest (part_001 line 75):
`[TYPE] title: summary`. -/
def noteLine (n : NoteItem) : String :=
  "[" ++ n.type.upper ++ "] " ++ n.title ++ ": " ++ n.summary

/-- The context payload built at connection time (part_001 line 75):
the first 50 notes (the list is kept newest-first by the store), each
rendered by `noteLine`, joined with newlines. -/
def contextSummary (notes : List NoteItem) : String :=
  String.intercalate "\n" ((notes.take 50).map noteLine)

/-! ### Service glue (`classifyContent` / `generateWeeklyReport`, part_000) -/

/-- The shape `classifyContent` reads off the parsed JSON response
(part_000 lines 129–141): each field may be absent.  A present empty
string is distinguished because JavaScript's `||` treats it as falsy. -/
structure RawClassification where
  type : Option String
  title : Option String
  summary : Option String
  content : Option String
  sourceUrl : Option String
deriving Repr, DecidableEq

/-- JavaScript `x || fb` on an optional string: the fallback replaces a
missing or empty value. -/
def orFalsy (x : Option String) (fb : String) : String :=
  match x with
  | some s => if s = "" then fb else s
  | none => fb

/-- The result record of `classifyContent` (part_000 lines 136–142). -/
structure ClassificationResult where
  type : NoteType
  title : String
  summary : String
  content : String
  sourceUrl : Option String
deriving Repr, DecidableEq

/-- The post-processing of `classifyContent` (part_000 lines 129–142)
applied to the parsed response `r` for input text `text`: the type
string maps to `article`/`chat` when it equals those literals and to
`thought` otherwise; missing (or empty) title, summary and content fall
back to `"Untitled Note"`, `"No summary available."` and the caller's
input text; a falsy sourceUrl becomes `undefined` (here `none`). -/
def classifyPost (text : String) (r : RawClassification) : ClassificationResult :=
  { type :=
      if r.type = some "article" then .article
      else if r.type = some "chat" then .chat
      else .thought
    title := orFalsy r.title "Untitled Note"
    summary := orFalsy r.summary "No summary available."
    content := orFalsy r.content text
    sourceUrl :=
      match r.sourceUrl with
      | some s => if s = "" then none else some s
      | none => none }

/-- The digest of a note sent to the report model (part_000
lines 152–160); `date` keeps the raw timestamp (the source renders it
with `toLocaleDateString`, a formatting step with no logic). -/
structure ReportItem where
  type : NoteType
  title : String
  content : String
  summary : String
  sourceUrl : Option String
  hasMedia : Bool
  date : ℕ
deriving Repr, DecidableEq

/-- The per-note mapping of `generateWeeklyReport` (part_000
lines 152–160). -/
def toReportItem (n : NoteItem) : ReportItem :=
  { type := n.type, title := n.title, content := n.content
    summary := n.summary, sourceUrl := n.sourceUrl
    hasMedia := n.hasMedia, date := n.createdAt }

/-- Outcome of the remote `generateContent` call: a successful response
whose `text` may be absent or empty, or a thrown error. -/
inductive GenOutcome where
  | ok (text : Option String)
  | err
deriving Repr, DecidableEq

/-- `generateWeeklyReport` (part_000 lines 149–188), after the client
was constructed: map the notes to their digests, call the model (the
oracle `respond` decides the outcome of that call on the mapped items),
and return `response.text || "Failed to generate report."` on success or
the fixed apology string when the call throws. -/
def generateWeeklyReport (items : List NoteItem)
    (respond : List ReportItem → GenOutcome) : String :=
  match respond (items.map toReportItem) with
  | .ok t => orFalsy t "Failed to generate report."
  | .err => "Failed to generate report. Please check your network or API quota."

/-- Initial session state: no resources held, playback at its initial
state, all flags clear. -/
def initSession : SessionState :=
  { processor := false, source := false, stream := false
    inputCtx := false, outputCtx := false
    playback := initPlayback
    isConnected := false, isSpeaking := false, error := none }

/-! ## Theorems -/

/-- C1: `enqueue` starts the chunk at `max(outputClockNow, nextStartTime)`,
advances the cursor to exactly `startAt + duration`, appends the fresh
handle to the active set, and the registered completion callback removes
exactly that handle; consequently a chunk enqueued back-to-back (the
output clock has not passed the previous chunk's end) starts exactly at
the previous chunk's end time: no gap, no overlap. -/
theorem enqueue_gapless_spec (s : PlaybackState) (c d c2 d2 : ℚ)
    (hwf : WFIds s) (hback : c2 ≤ (enqueue s c d).1.nextStartTime) :
    (enqueue s c d).2.2 = max c s.nextStartTime ∧
    (enqueue s c d).1.nextStartTime = (enqueue s c d).2.2 + d ∧
    (enqueue s c d).1.active = s.active ++ [(enqueue s c d).2.1] ∧
    (onEnded (enqueue s c d).1 (enqueue s c d).2.1).active = s.active ∧
    (enqueue (enqueue s c d).1 c2 d2).2.2 = (enqueue s c d).2.2 + d := by
  refine ⟨by simp [enqueue, max_comm], rfl, rfl, ?_, ?_⟩
  · simp only [onEnded, enqueue]
    rw [List.filter_append]
    have h1 : s.active.filter (fun x => x ≠ s.nextId) = s.active :=
      List.filter_eq_self.mpr (fun a ha => by
        simpa using Nat.ne_of_lt (hwf a ha))
    simp [h1]
    exact fun a ha => Nat.ne_of_lt (hwf a ha)
  · have h : c2 ≤ max s.nextStartTime c + d := by simpa [enqueue] using hback
    simp [enqueue, max_eq_left h]

/-- Witness for C1 at a concrete run: first chunk of duration 2 enqueued
at clock 1 from the initial state, second chunk at clock 3. -/
theorem enqueue_gapless_spec_witness :
    (enqueue initPlayback 1 2).2.2 = max 1 initPlayback.nextStartTime ∧
    (enqueue initPlayback 1 2).1.nextStartTime = (enqueue initPlayback 1 2).2.2 + 2 ∧
    (enqueue initPlayback 1 2).1.active =
      initPlayback.active ++ [(enqueue initPlayback 1 2).2.1] ∧
    (onEnded (enqueue initPlayback 1 2).1 (enqueue initPlayback 1 2).2.1).active =
      initPlayback.active ∧
    (enqueue (enqueue initPlayback 1 2).1 3 1).2.2 = (enqueue initPlayback 1 2).2.2 + 2 :=
  enqueue_gapless_spec initPlayback 1 2 3 1
    (by intro h hh; simp [initPlayback] at hh)
    (by norm_num [enqueue, initPlayback])

/-- C2: after `interrupt` the active set is empty and the cursor is 0,
and any chunk enqueued afterwards is scheduled to start at or after the
current output clock, never before it. -/
theorem interrupt_invariant (s : PlaybackState) (c d : ℚ) :
    (interruptSched s).active = [] ∧
    (interruptSched s).nextStartTime = 0 ∧
    c ≤ (enqueue (interruptSched s) c d).2.2 := by
  refine ⟨rfl, rfl, ?_⟩
  simp [enqueue, interruptSched]

/-- C3 counterexample: a message carrying both an audio chunk (duration 1)
and the interruption flag, handled at output clock 3 from the initial
state, is NOT processed interruption-first: the handler's result differs
from applying the interruption before the chunk (the code ends with an
empty active set and cursor 0, interruption-first would end with the
chunk active on a fresh timeline). -/
theorem onmessage_not_interrupt_first :
    onmessage initPlayback 3 { audioDur := some 1, interrupted := true } ≠
      onmessageInterruptFirst initPlayback 3 { audioDur := some 1, interrupted := true } := by
  intro h
  have h2 := congrArg PlaybackState.active h
  simp [onmessage, onmessageInterruptFirst, enqueue, interruptSched, initPlayback] at h2

/-- C3 amended: within a single inbound message carrying both an audio
chunk and the interruption flag, the audio branch runs first — the chunk
is started and added to the active set — and the interruption is applied
afterwards, stopping it and clearing the set; after the message the
active set is empty and the cursor is 0, so a chunk in any later message
begins a fresh timeline, starting at `max 0 clock`. -/
theorem onmessage_audio_then_interrupt (s : PlaybackState) (c d c' d' : ℚ) :
    onmessage s c { audioDur := some d, interrupted := true } =
      interruptSched (enqueue s c d).1 ∧
    (enqueue s c d).1.active = s.active ++ [s.nextId] ∧
    (onmessage s c { audioDur := some d, interrupted := true }).active = [] ∧
    (onmessage s c { audioDur := some d, interrupted := true }).nextStartTime = 0 ∧
    (enqueue (onmessage s c { audioDur := some d, interrupted := true }) c' d').2.2 =
      max 0 c' := by
  refine ⟨rfl, rfl, rfl, rfl, ?_⟩
  simp [onmessage, enqueue, interruptSched]

/-- A session state mid-playback: all device resources held, one source
playing, the AI-responding indicator on. -/
def midPlaybackSession : SessionState :=
  { processor := true, source := true, stream := true
    inputCtx := true, outputCtx := true
    playback := { nextStartTime := 2, active := [0], nextId := 1, isAIResponding := true }
    isConnected := true, isSpeaking := false, error := none }

/-- C4 counterexample: a channel error arriving mid-playback does NOT
perform the close teardown — the playback active set is not flushed, the
mic stream, capture processor and output context all stay held, and the
AI-responding indicator stays on — even though the user-visible message
is surfaced.  Audio scheduled before the error keeps playing. -/
theorem onerror_leaves_audio_playing :
    (onerror midPlaybackSession).playback.active = [0] ∧
    (onerror midPlaybackSession).playback.isAIResponding = true ∧
    (onerror midPlaybackSession).stream = true ∧
    (onerror midPlaybackSession).processor = true ∧
    (onerror midPlaybackSession).outputCtx = true ∧
    (onerror midPlaybackSession).error = some "Connection error." :=
  ⟨rfl, rfl, rfl, rfl, rfl, rfl⟩

/-- C4 amended: the error callback surfaces the fixed user-visible
message "Connection error." and clears the connected flag, but performs
no audio teardown: every device resource and the whole playback state
are left unchanged.  The full teardown (which does flush the active set
and release the devices) runs only in `cleanupAudio`, invoked when the
modal is closed or unmounted. -/
theorem onerror_surfaces_without_teardown (s : SessionState) :
    (onerror s).error = some "Connection error." ∧
    (onerror s).isConnected = false ∧
    (onerror s).playback = s.playback ∧
    (onerror s).processor = s.processor ∧
    (onerror s).source = s.source ∧
    (onerror s).stream = s.stream ∧
    (onerror s).inputCtx = s.inputCtx ∧
    (onerror s).outputCtx = s.outputCtx ∧
    (cleanupAudio (onerror s)).playback.active = [] ∧
    (cleanupAudio (onerror s)).stream = false ∧
    (cleanupAudio (onerror s)).processor = false :=
  ⟨rfl, rfl, rfl, rfl, rfl, rfl, rfl, rfl, rfl, rfl, rfl⟩

/-- C5: the AI-responding indicator equals non-emptiness of the active
set, and this invariant is preserved by every scheduler operation;
`enqueue` always leaves the indicator on (it never becomes false at
enqueue time), the completion callback turns it off exactly when it
empties the active set, and `interrupt` turns it off. -/
theorem responding_indicator_invariant (s : PlaybackState) (c d : ℚ) (h : ℕ)
    (hinv : RespondingInv s) :
    (enqueue s c d).1.isAIResponding = true ∧
    RespondingInv (enqueue s c d).1 ∧
    RespondingInv (onEnded s h) ∧
    ((onEnded s h).active = [] → (onEnded s h).isAIResponding = false) ∧
    ((onEnded s h).active ≠ [] → (onEnded s h).isAIResponding = true) ∧
    (interruptSched s).isAIResponding = false ∧
    RespondingInv (interruptSched s) := by
  have hend : RespondingInv (onEnded s h) := by
    simp only [RespondingInv, onEnded]
    by_cases hc : (s.active.filter (fun x => x ≠ h)).length = 0
    · have hfil : s.active.filter (fun x => x ≠ h) = [] := List.length_eq_zero.mp hc
      rw [if_pos hc, hfil]
      simp
    · have hne : s.active.filter (fun x => x ≠ h) ≠ [] := fun h0 => hc (by rw [h0]; rfl)
      have hact : s.active ≠ [] := by
        intro h0
        exact hne (by rw [h0]; rfl)
      rw [if_neg hc]
      exact ⟨fun _ => hne, fun _ => hinv.mpr hact⟩
  refine ⟨rfl, ?_, hend, ?_, ?_, rfl, ?_⟩
  · simp [RespondingInv, enqueue]
  · intro hempty
    cases hb : (onEnded s h).isAIResponding
    · rfl
    · exact absurd hempty (hend.mp hb)
  · intro hne
    exact hend.mpr hne
  · simp [RespondingInv, interruptSched]

/-- Witness for C5 at the initial scheduler state (indicator off, active
set empty), one chunk of duration 1 at clock 0, completion of handle 0. -/
theorem responding_indicator_invariant_witness :
    (enqueue initPlayback 0 1).1.isAIResponding = true ∧
    RespondingInv (enqueue initPlayback 0 1).1 ∧
    RespondingInv (onEnded initPlayback 0) ∧
    ((onEnded initPlayback 0).active = [] →
      (onEnded initPlayback 0).isAIResponding = false) ∧
    ((onEnded initPlayback 0).active ≠ [] →
      (onEnded initPlayback 0).isAIResponding = true) ∧
    (interruptSched initPlayback).isAIResponding = false ∧
    RespondingInv (interruptSched initPlayback) :=
  responding_indicator_invariant initPlayback 0 1 0
    (by simp [RespondingInv, initPlayback])

/-- C6: each capture tick sets the speaking indicator to exactly whether
the block's mean absolute amplitude exceeds the fixed 0.01 threshold;
the result does not depend on the previous session state, so two ticks
over blocks of the same amplitude always agree (no hysteresis). -/
theorem vad_amplitude_gate (s s' : SessionState) (block : List ℚ) :
    ((onaudioprocess s block).isSpeaking = true ↔ meanAbs block > vadThreshold) ∧
    (onaudioprocess s block).isSpeaking = (onaudioprocess s' block).isSpeaking :=
  ⟨by simp [onaudioprocess], rfl⟩

/-- C7: `cleanupAudio` and the playback interrupt are idempotent —
running either twice in a row ends in the same state as running it once —
and both are safe no-ops on the pristine initial states where nothing was
ever started. -/
theorem teardown_interrupt_idempotent (s : SessionState) (p : PlaybackState) :
    cleanupAudio (cleanupAudio s) = cleanupAudio s ∧
    interruptSched (interruptSched p) = interruptSched p ∧
    cleanupAudio initSession = initSession ∧
    interruptSched initPlayback = initPlayback :=
  ⟨rfl, rfl, rfl, rfl⟩

/-- C8: the context payload reads only the first 50 notes of the
newest-first list (so at most 50, the most recent ones), and each note
contributes only through its type, title and summary — two notes
agreeing on those three fields contribute identical lines. -/
theorem context_payload_bounded (notes : List NoteItem) (n n' : NoteItem)
    (ht : n.type = n'.type) (hti : n.title = n'.title)
    (hs : n.summary = n'.summary) :
    contextSummary notes = contextSummary (notes.take 50) ∧
    (notes.take 50).length ≤ 50 ∧
    noteLine n = noteLine n' := by
  refine ⟨?_, ?_, ?_⟩
  · simp [contextSummary, List.take_take]
  · rw [List.length_take]
    exact min_le_left _ _
  · simp [noteLine, ht, hti, hs]

/-- A note with every field blank, used to instantiate witnesses. -/
def blankNote : NoteItem :=
  { id := "", content := "", type := .thought, title := "", summary := ""
    createdAt := 0, sourceUrl := none, hasMedia := false }

/-- Witness for C8 on a one-note list and two (identical) notes. -/
theorem context_payload_bounded_witness :
    contextSummary [blankNote] = contextSummary ([blankNote].take 50) ∧
    ([blankNote].take 50).length ≤ 50 ∧
    noteLine blankNote = noteLine blankNote :=
  context_payload_bounded [blankNote] blankNote blankNote rfl rfl rfl

/-- C9: the classification result's type is always one of thought,
article or chat — never unknown — with any type string other than
"article"/"chat" mapping to thought; and missing title, summary and
content fall back to "Untitled Note", "No summary available." and the
caller's input text respectively. -/
theorem classify_result_total (text : String) (r r0 : RawClassification)
    (h1 : r0.type ≠ some "article") (h2 : r0.type ≠ some "chat")
    (h3 : r0.title = none) (h4 : r0.summary = none) (h5 : r0.content = none) :
    ((classifyPost text r).type = NoteType.thought ∨
      (classifyPost text r).type = NoteType.article ∨
      (classifyPost text r).type = NoteType.chat) ∧
    (classifyPost text r).type ≠ NoteType.unknown ∧
    (classifyPost text r0).type = NoteType.thought ∧
    (classifyPost text r0).title = "Untitled Note" ∧
    (classifyPost text r0).summary = "No summary available." ∧
    (classifyPost text r0).content = text := by
  refine ⟨?_, ?_, ?_, ?_, ?_, ?_⟩
  · by_cases ha : r.type = some "article"
    · right; left; simp [classifyPost, ha]
    · by_cases hch : r.type = some "chat"
      · right; right; simp [classifyPost, ha, hch]
      · left; simp [classifyPost, ha, hch]
  · by_cases ha : r.type = some "article" <;> by_cases hch : r.type = some "chat" <;>
      simp [classifyPost, ha, hch]
  · simp [classifyPost, h1, h2]
  · simp [classifyPost, orFalsy, h3]
  · simp [classifyPost, orFalsy, h4]
  · simp [classifyPost, orFalsy, h5]

/-- Witness for C9: a response with an unrecognized type string, and a
response with every field absent. -/
theorem classify_result_total_witness :
    ((classifyPost "hello" ⟨some "weird", some "T", some "S", some "C", none⟩).type =
        NoteType.thought ∨
      (classifyPost "hello" ⟨some "weird", some "T", some "S", some "C", none⟩).type =
        NoteType.article ∨
      (classifyPost "hello" ⟨some "weird", some "T", some "S", some "C", none⟩).type =
        NoteType.chat) ∧
    (classifyPost "hello" ⟨some "weird", some "T", some "S", some "C", none⟩).type ≠
      NoteType.unknown ∧
    (classifyPost "hello" ⟨none, none, none, none, none⟩).type = NoteType.thought ∧
    (classifyPost "hello" ⟨none, none, none, none, none⟩).title = "Untitled Note" ∧
    (classifyPost "hello" ⟨none, none, none, none, none⟩).summary =
      "No summary available." ∧
    (classifyPost "hello" ⟨none, none, none, none, none⟩).content = "hello" :=
  classify_result_total "hello" ⟨some "weird", some "T", some "S", some "C", none⟩
    ⟨none, none, none, none, none⟩ (by simp) (by simp) rfl rfl rfl

/-- C10: once the client is constructed, `generateWeeklyReport` always
returns a string: a thrown generation call yields the fixed apology
string, a successful call with an absent or empty response text yields
"Failed to generate report.", and a non-empty response text is returned
as is. -/
theorem weekly_report_never_rejects (items : List NoteItem) (t : String)
    (ht : t ≠ "") :
    generateWeeklyReport items (fun _ => GenOutcome.err) =
      "Failed to generate report. Please check your network or API quota." ∧
    generateWeeklyReport items (fun _ => GenOutcome.ok none) =
      "Failed to generate report." ∧
    generateWeeklyReport items (fun _ => GenOutcome.ok (some "")) =
      "Failed to generate report." ∧
    generateWeeklyReport items (fun _ => GenOutcome.ok (some t)) = t := by
  refine ⟨rfl, rfl, by simp [generateWeeklyReport, orFalsy], ?_⟩
  simp [generateWeeklyReport, orFalsy, ht]

/-- Witness for C10 on the empty notes list and the response text "ok". -/
theorem weekly_report_never_rejects_witness :
    generateWeeklyReport [] (fun _ => GenOutcome.err) =
      "Failed to generate report. Please check your network or API quota." ∧
    generateWeeklyReport [] (fun _ => GenOutcome.ok none) =
      "Failed to generate report." ∧
    generateWeeklyReport [] (fun _ => GenOutcome.ok (some "")) =
      "Failed to generate report." ∧
    generateWeeklyReport [] (fun _ => GenOutcome.ok (some "ok")) = "ok" :=
  weekly_report_never_rejects [] "ok" (by simp)

end WechatHelp
